import Mathlib

set_option maxHeartbeats 1000000

/-! # Shallow embedding of the Intel 8155/8156 RAM-I/O-Timer device

Embedding of `src/devices/machine/i8155.cpp`. Machine integers are
modelled as `Nat` with explicit masking exactly where the C++ types
truncate (every `uint8_t` parameter is masked with `0xff` on entry).
The two MAME `emu_timer` objects are modelled as optional absolute
deadlines measured in base-clock ticks, together with the current time
`now`; firing an event sets `now` to the deadline and clears the handle
before running the handler, exactly as MAME's scheduler does for a
one-shot `adjust` timer. Output-line callbacks are modelled as an
emitted event list; port input callbacks are modelled by an external
function `inp` passed to the read operations. -/

/-- External output-callback invocations emitted by the chip
(`m_out_pa_cb`, `m_out_pb_cb`, `m_out_pc_cb`, `m_out_to_cb`). -/
inductive Ev where
  | out_pa (v : Nat)
  | out_pb (v : Nat)
  | out_pc (v : Nat)
  | out_to (v : Nat)
  deriving DecidableEq, Repr

/-- The mutable state of one `i8155_device` instance, plus the two
scheduled-event handles (`m_timer`, `m_timer_tc`) as absolute deadlines
and the current time `now` in base-clock ticks. -/
structure I8155State where
  ram : Nat → Nat
  io_m : Nat
  ad : Nat
  command : Nat
  status : Nat
  output : Nat → Nat
  count_length : Nat
  count_loaded : Nat
  m_to : Nat
  count_even_phase : Bool
  now : Nat
  timer : Option Nat
  timer_tc : Option Nat

/-- `i8155_device::get_timer_mode`. -/
def get_timer_mode (s : I8155State) : Nat :=
  (s.count_loaded >>> 8) &&& 0xc0

/-- `m_timer->remaining()` converted back to clocks: the distance from
`now` to the pending half-period deadline. -/
def remainingClocks (s : I8155State) : Nat :=
  match s.timer with
  | some d => d - s.now
  | none => 0

/-- `i8155_device::get_timer_count`. The `% 65536` is the `uint16_t`
cast applied to `attotime_to_clocks` in the source. -/
def get_timer_count (s : I8155State) : Nat :=
  if s.timer.isSome then
    min ((remainingClocks s % 65536 + 1) <<< 1) (s.count_loaded &&& 0x3ffe) |||
      (if s.count_even_phase then 0 else 1)
  else
    s.count_length

/-- `i8155_device::timer_output`: drive the TO pin, invoking the
callback only on an actual level change. -/
def timer_output (v : Nat) (s : I8155State) : I8155State × List Ev :=
  if v = s.m_to then (s, [])
  else ({ s with m_to := v }, [Ev.out_to v])

/-- `i8155_device::timer_stop_count`. -/
def timer_stop_count (s : I8155State) : I8155State × List Ev :=
  let s1 :=
    if s.timer.isSome then
      { s with
        count_loaded := (s.count_loaded &&& 0xc000) ||| get_timer_count s,
        timer := none }
    else s
  timer_output 1 { s1 with timer_tc := none }

/-- `i8155_device::timer_reload_count`. -/
def timer_reload_count (s : I8155State) : I8155State × List Ev :=
  let s1 := { s with count_loaded := s.count_length }
  if s1.count_length &&& 0x3fff < 2 then
    timer_stop_count s1
  else
    timer_output 1
      { s1 with
        count_even_phase := false,
        timer := some (s1.now +
          (((s1.count_length &&& 0x3ffe) >>> 1) + (s1.count_length &&& 1))) }

/-- `i8155_device::get_port_mode` (PORT_MODE_INPUT = 0, OUTPUT = 1,
STROBED_PORT_A = 2, STROBED = 3; -1 for an invalid port index). -/
def get_port_mode (s : I8155State) (port : Nat) : Int :=
  if port = 0 then (if s.command &&& 0x01 ≠ 0 then 1 else 0)
  else if port = 1 then (if s.command &&& 0x02 ≠ 0 then 1 else 0)
  else if port = 2 then
    (if s.command &&& 0x0c = 0x00 then 0
     else if s.command &&& 0x0c = 0x0c then 1
     else if s.command &&& 0x0c = 0x04 then 2
     else 3)
  else -1

/-- `i8155_device::read_port`; `inp` supplies the external input-line
callbacks (`m_in_pa_cb`/`m_in_pb_cb`/`m_in_pc_cb`). -/
def read_port (inp : Nat → Nat) (s : I8155State) (port : Nat) : Nat :=
  if get_port_mode s port = 0 then inp port
  else if get_port_mode s port = 1 then s.output port
  else 0

/-- `i8155_device::write_port`. -/
def write_port (port : Nat) (data : Nat) (s : I8155State) :
    I8155State × List Ev :=
  let data := data &&& 0xff
  let s1 := { s with output := fun i => if i = port then data else s.output i }
  if get_port_mode s1 port = 1 then
    (s1, [if port = 0 then Ev.out_pa (s1.output port)
          else if port = 1 then Ev.out_pb (s1.output port)
          else Ev.out_pc (s1.output port)])
  else (s1, [])

/-- `i8155_device::write_command`. -/
def write_command (data : Nat) (s : I8155State) : I8155State × List Ev :=
  let data := data &&& 0xff
  let old_command := s.command
  let s1 := { s with command := data }
  let e1 := if data &&& 0x01 ≠ 0 ∧ old_command &&& 0x01 = 0 then
      [Ev.out_pa (s1.output 0)] else []
  let e2 := if data &&& 0x02 ≠ 0 ∧ old_command &&& 0x02 = 0 then
      [Ev.out_pb (s1.output 1)] else []
  let e3 := if data &&& 0x0c = 0x0c ∧ old_command &&& 0x0c ≠ 0x0c then
      [Ev.out_pc (s1.output 2)] else []
  let r :=
    if data &&& 0xc0 = 0x40 then timer_stop_count s1
    else if data &&& 0xc0 = 0xc0 then
      (if s1.timer.isSome then (s1, []) else timer_reload_count s1)
    else (s1, [])
  (r.1, e1 ++ e2 ++ e3 ++ r.2)

/-- `i8155_device::timer_half_counted` (entered with `now` advanced to
the deadline and the half-period handle already cleared). -/
def timer_half_counted (s : I8155State) : I8155State × List Ev :=
  if s.count_even_phase then
    let r1 := timer_output 1 s
    let s2 := { r1.1 with count_even_phase := false }
    if get_timer_mode s2 &&& 0x40 = 0 ∨ s2.command &&& 0xc0 = 0x80 then
      let r2 := timer_stop_count s2
      (r2.1, r1.2 ++ r2.2)
    else
      let r2 := timer_reload_count s2
      (r2.1, r1.2 ++ r2.2)
  else
    let s1 := { s with
      timer := some (s.now + ((s.count_loaded &&& 0x3ffe) >>> 1)),
      count_even_phase := true }
    if get_timer_mode s1 &&& 0x80 = 0 then
      timer_output 0 s1
    else
      ({ s1 with
         timer_tc := some (s1.now +
           ((max (s1.count_loaded &&& 0x3ffe) 2 - 2) >>> 1)) }, [])

/-- `i8155_device::timer_tc` (entered with `now` advanced to the
deadline and the TC handle already cleared). -/
def timer_tc (s : I8155State) : I8155State × List Ev :=
  let r1 := if get_timer_mode s &&& 0x80 ≠ 0 then timer_output 0 s else (s, [])
  ({ r1.1 with status := r1.1.status ||| 0x40 }, r1.2)

/-- The host scheduler firing the half-period event at its deadline. -/
def fireHalf (s : I8155State) : I8155State × List Ev :=
  match s.timer with
  | some d => timer_half_counted { s with now := d, timer := none }
  | none => (s, [])

/-- The host scheduler firing the terminal-count event at its deadline. -/
def fireTC (s : I8155State) : I8155State × List Ev :=
  match s.timer_tc with
  | some d => timer_tc { s with now := d, timer_tc := none }
  | none => (s, [])

/-- `i8155_device::io_r`; `sed` is `machine().side_effects_disabled()`.
`m_status &= ~STATUS_TIMER` on the byte-wide status register is the
`&&& 0xbf` mask. -/
def io_r (inp : Nat → Nat) (sed : Bool) (offset : Nat) (s : I8155State) :
    Nat × I8155State :=
  let r := offset &&& 0x07
  if r = 0 then
    (s.status, if sed then s else { s with status := s.status &&& 0xbf })
  else if r = 1 then (read_port inp s 0, s)
  else if r = 2 then (read_port inp s 1, s)
  else if r = 3 then (read_port inp s 2 ||| 0xc0, s)
  else if r = 4 then (get_timer_count s &&& 0xff, s)
  else if r = 5 then (((get_timer_count s >>> 8) &&& 0x3f) ||| get_timer_mode s, s)
  else (0, s)

/-- `i8155_device::register_w`. -/
def register_w (offset : Nat) (data : Nat) (s : I8155State) :
    I8155State × List Ev :=
  let data := data &&& 0xff
  let r := offset &&& 0x07
  if r = 0 then write_command data s
  else if r = 1 then write_port 0 data s
  else if r = 2 then write_port 1 data s
  else if r = 3 then write_port 2 (data &&& 0x3f) s
  else if r = 4 then
    ({ s with count_length := (s.count_length &&& 0xff00) ||| data }, [])
  else if r = 5 then
    ({ s with count_length := (data <<< 8) ||| (s.count_length &&& 0xff) }, [])
  else (s, [])

/-- `i8155_device::io_w`. -/
def io_w (offset data : Nat) (s : I8155State) : I8155State × List Ev :=
  register_w offset data s

/-- `i8155_device::memory_r`. -/
def memory_r (offset : Nat) (s : I8155State) : Nat :=
  s.ram (offset &&& 0xff)

/-- `i8155_device::memory_w`. -/
def memory_w (offset data : Nat) (s : I8155State) : I8155State :=
  { s with ram := fun i => if i = (offset &&& 0xff) then data &&& 0xff else s.ram i }

/-- `i8155_device::ale_w`: latch I/O-vs-memory select and the address. -/
def ale_w (offset data : Nat) (s : I8155State) : I8155State :=
  { s with io_m := offset &&& 1, ad := data &&& 0xff }

/-- `i8155_device::data_r`. -/
def data_r (inp : Nat → Nat) (sed : Bool) (s : I8155State) :
    Nat × I8155State :=
  if s.io_m = 0 then (memory_r s.ad s, s)
  else io_r inp sed s.ad s

/-- `i8155_device::data_w`. -/
def data_w (data : Nat) (s : I8155State) : I8155State × List Ev :=
  if s.io_m = 0 then (memory_w s.ad data s, [])
  else io_w s.ad data s

/-- `i8155_device::device_reset`. -/
def device_reset (s : I8155State) : I8155State × List Ev :=
  let s1 := { s with output := fun _ => 0 }
  let r1 := register_w 0 (s1.command &&& 0xf0) s1
  let s3 := { r1.1 with status := r1.1.status &&& 0xbf }
  let r2 := timer_stop_count s3
  (r2.1, r1.2 ++ r2.2)

/-- One externally triggerable operation on the chip: a bus access, a
scheduled event firing, a reset, or the passage of time. -/
inductive Op where
  | aleOp (offset data : Nat)
  | dataWOp (v : Nat)
  | dataROp (sed : Bool)
  | ioWOp (offset data : Nat)
  | ioROp (sed : Bool) (offset : Nat)
  | memWOp (offset data : Nat)
  | halfOp
  | tcOp
  | resetOp
  | advanceOp (n : Nat)

/-- Execute one operation, returning the new state and the emitted
callback events. -/
def step (inp : Nat → Nat) (op : Op) (s : I8155State) :
    I8155State × List Ev :=
  match op with
  | Op.aleOp o d => (ale_w o d s, [])
  | Op.dataWOp v => data_w v s
  | Op.dataROp sed => ((data_r inp sed s).2, [])
  | Op.ioWOp o d => io_w o d s
  | Op.ioROp sed o => ((io_r inp sed o s).2, [])
  | Op.memWOp o d => (memory_w o d s, [])
  | Op.halfOp => fireHalf s
  | Op.tcOp => fireTC s
  | Op.resetOp => device_reset s
  | Op.advanceOp n => ({ s with now := s.now + n }, [])

/-- Execute a list of operations, concatenating the emitted events. -/
def run (inp : Nat → Nat) (ops : List Op) (s : I8155State) :
    I8155State × List Ev :=
  match ops with
  | [] => (s, [])
  | op :: rest =>
    let r1 := step inp op s
    let r2 := run inp rest r1.1
    (r2.1, r1.2 ++ r2.2)

/-- Two consecutive half-period firings: one full square-wave period. -/
def fireHalfTwice (s : I8155State) : I8155State :=
  (fireHalf (fireHalf s).1).1

/-- Recognizer for port-A output-callback events. -/
def isPA : Ev → Bool
  | Ev.out_pa _ => true
  | _ => false

/-- Recognizer for port-B output-callback events. -/
def isPB : Ev → Bool
  | Ev.out_pb _ => true
  | _ => false

/-- The sequence of TO levels in an event trace. -/
def toSeq : List Ev → List Nat
  | [] => []
  | Ev.out_to v :: es => v :: toSeq es
  | _ :: es => toSeq es

/-- `chainNe v l`: every element of `l` differs from its predecessor,
with `v` as the element before the first. -/
def chainNe : Nat → List Nat → Prop
  | _, [] => True
  | v, w :: ws => v ≠ w ∧ chainNe w ws

/-- The last element of `l`, or `v` when `l` is empty. -/
def lastD (v : Nat) : List Nat → Nat
  | [] => v
  | w :: ws => lastD w ws

/-- `Alt v es w`: the TO levels in `es` alternate starting from driven
level `v` and leave the driven level at `w`. -/
def Alt (v : Nat) (es : List Ev) (w : Nat) : Prop :=
  chainNe v (toSeq es) ∧ lastD v (toSeq es) = w

/-- A default input-callback assignment (all input lines low). -/
def inp0 : Nat → Nat := fun _ => 0

/-- A concrete baseline chip state used to instantiate theorems. -/
def specBase : I8155State :=
  { ram := fun _ => 0, io_m := 1, ad := 0, command := 0, status := 0,
    output := fun _ => 0, count_length := 0, count_loaded := 0,
    m_to := 1, count_even_phase := false, now := 0,
    timer := none, timer_tc := none }

/-- Concrete state for the C10 witness. -/
def c10st : I8155State := { specBase with count_length := 0xabcd }

/-- Concrete state for the C6 witness. -/
def c6st : I8155State := { specBase with status := 0x40 }

/-- Concrete state for the C5 witness. -/
def c5st : I8155State :=
  { specBase with count_length := 0x4001, m_to := 0 }

/-! ## C3: the Stop command -/

/-- Concrete state refuting C3 as stated: timer stopped, with
`count_loaded = 100` but `count_length = 5` (reachable by letting a
non-auto-reload count of 100 run out and then reprogramming the length
registers). -/
def c3cex : I8155State :=
  { specBase with count_loaded := 100, count_length := 5 }

/-- Concrete running state for the C3 witness: count 100 started at
time 0, stopped at time 30 (live count 43 snapshotted, mode bits of
the loaded value preserved). -/
def c3st : I8155State :=
  { specBase with
    count_length := 100, count_loaded := 0x4064,
    m_to := 0, timer := some 50, now := 30 }

/-- Concrete running state for the C4 witness. -/
def c4st : I8155State :=
  { specBase with
    count_length := 0x2222, count_loaded := 0x4064,
    m_to := 0, timer := some 50, timer_tc := some 49, now := 30 }

/-- Concrete state for the C7 witness: all ports in input mode, port A
latch holding `0x5a`. -/
def c7st : I8155State :=
  { specBase with output := fun i => if i = 0 then 0x5a else 0 }

/-! ## C2: terminal-count pulse mode -/

/-- Concrete state for the C2 scenario: length 100, mode TC_PULSE. -/
def c2st : I8155State := { specBase with count_length := 0x8064 }

/-- The C2 scenario: Start, then fire the scheduled events in deadline
order (half at 50, TC at 99, half at 100), then two more (vacuous)
firings. -/
def c2ops : List Op :=
  [Op.ioWOp 0 0xc0, Op.halfOp, Op.tcOp, Op.halfOp, Op.halfOp, Op.tcOp]

/-- Concrete state for the C2 witness: a pending TC event at tick 7
with TC_PULSE mode loaded. -/
def c2wst : I8155State :=
  { specBase with count_loaded := 0x8064, status := 3, timer_tc := some 7 }

/-! ## C1: square-wave timing -/

/-- The state right after a successful (length ≥ 2) reload. -/
def reloadedState (s : I8155State) : I8155State :=
  { s with
    count_loaded := s.count_length,
    count_even_phase := false,
    timer := some (s.now +
      (((s.count_length &&& 0x3ffe) >>> 1) + (s.count_length &&& 1))),
    m_to := 1 }

/-- Concrete state for the C1 witness: length 100, AUTO_RELOAD mode. -/
def c1st : I8155State := { specBase with count_length := 0x4064 }

/-! ## Arithmetic bridging lemmas for the bit masks in the source -/

theorem eq_zero_iff_testBit (z : Nat) : z = 0 ↔ ∀ i, z.testBit i = false := by
  constructor
  · intro h i
    subst h
    exact Nat.zero_testBit i
  · intro h
    refine Nat.eq_of_testBit_eq fun i => ?_
    simp [h i, Nat.zero_testBit]

theorem or_shiftRight_distrib (a b n : Nat) :
    (a ||| b) >>> n = (a >>> n) ||| (b >>> n) := by
  refine Nat.eq_of_testBit_eq fun i => ?_
  simp [Nat.testBit_shiftRight, Nat.testBit_or]

theorem and_shiftRight_distrib (a b n : Nat) :
    (a &&& b) >>> n = (a >>> n) &&& (b >>> n) := by
  refine Nat.eq_of_testBit_eq fun i => ?_
  simp [Nat.testBit_shiftRight, Nat.testBit_and]

theorem and_mask14 (x : Nat) : x &&& 0x3fff = x % 16384 := by
  have h := Nat.and_pow_two_sub_one_eq_mod x 14
  norm_num at h
  exact h

theorem and_mask13 (x : Nat) : x &&& 0x1fff = x % 8192 := by
  have h := Nat.and_pow_two_sub_one_eq_mod x 13
  norm_num at h
  exact h

theorem and_mask8 (x : Nat) : x &&& 0xff = x % 256 := by
  have h := Nat.and_pow_two_sub_one_eq_mod x 8
  norm_num at h
  exact h

theorem floorHalf (x : Nat) : (x &&& 0x3ffe) >>> 1 = (x &&& 0x3fff) / 2 := by
  have h1 : (x &&& 0x3ffe) >>> 1 = (x &&& 0x3ffe) / 2 := by
    rw [Nat.shiftRight_eq_div_pow]
  rw [h1, Nat.and_div_two]
  norm_num
  rw [and_mask13, and_mask14]
  have h2 := Nat.mod_mul_right_div_self x 2 8192
  norm_num at h2
  omega

theorem ceilHalf (x : Nat) :
    ((x &&& 0x3ffe) >>> 1) + (x &&& 1) = ((x &&& 0x3fff) + 1) / 2 := by
  rw [floorHalf, Nat.and_one_is_mod, and_mask14]
  have h2 : x % 16384 % 2 = x % 2 := Nat.mod_mod_of_dvd x (by norm_num)
  omega

theorem and_two_pow_eq_zero_iff (x n : Nat) :
    x &&& 2 ^ n = 0 ↔ x.testBit n = false := by
  constructor
  · intro h
    have h2 := congrArg (fun z => z.testBit n) h
    simpa [Nat.testBit_and, Nat.testBit_two_pow, Nat.zero_testBit] using h2
  · intro h
    refine Nat.eq_of_testBit_eq fun i => ?_
    by_cases hni : n = i
    · subst hni
      simp [Nat.testBit_and, Nat.testBit_two_pow, Nat.zero_testBit, h]
    · simp [Nat.testBit_and, Nat.testBit_two_pow, Nat.zero_testBit, hni]

theorem shift_and_two_pow (x k n : Nat) :
    ((x >>> k) &&& 2 ^ n = 0) ↔ (x &&& 2 ^ (k + n) = 0) := by
  rw [and_two_pow_eq_zero_iff, and_two_pow_eq_zero_iff, Nat.testBit_shiftRight]

theorem mode_tc_pulse_iff (x : Nat) :
    (((x >>> 8) &&& 0xc0) &&& 0x80 = 0) ↔ (x &&& 0x8000 = 0) := by
  rw [Nat.and_assoc]
  have h1 : (0xc0 &&& 0x80 : Nat) = 0x80 := by decide
  rw [h1]
  have h := shift_and_two_pow x 8 7
  norm_num at h
  exact h

theorem mode_auto_reload_iff (x : Nat) :
    (((x >>> 8) &&& 0xc0) &&& 0x40 = 0) ↔ (x &&& 0x4000 = 0) := by
  rw [Nat.and_assoc]
  have h1 : (0xc0 &&& 0x40 : Nat) = 0x40 := by decide
  rw [h1]
  have h := shift_and_two_pow x 8 6
  norm_num at h
  exact h

theorem or_shiftLeft_shiftRight (a b n : Nat) (hb : b < 2 ^ n) :
    ((a <<< n) ||| b) >>> n = a := by
  refine Nat.eq_of_testBit_eq fun i => ?_
  rw [Nat.testBit_shiftRight]
  have hb' : b.testBit (n + i) = false :=
    Nat.testBit_lt_two_pow
      (lt_of_lt_of_le hb (Nat.pow_le_pow_right (by norm_num) (by omega)))
  simp [Nat.testBit_or, Nat.testBit_shiftLeft, hb', Nat.le_add_right]

/-! ## C9: unused register indices 6 and 7 -/

/-- C9: for every latched I/O address whose low 3 bits are 6 or 7, an
I/O read returns 0 with no side effect, and an I/O write leaves the
entire chip state unchanged and invokes no callbacks. -/
theorem C9_unused_registers (inp : Nat → Nat) (sed : Bool) (offset d : Nat)
    (s : I8155State) (h : offset &&& 0x07 = 6 ∨ offset &&& 0x07 = 7) :
    io_r inp sed offset s = (0, s) ∧ register_w offset d s = (s, []) := by
  rcases h with h | h <;> exact ⟨by simp [io_r, h], by simp [register_w, h]⟩

/-- C9 witness: address 14 (low 3 bits = 6) on the baseline state. -/
theorem C9_unused_registers_witness :
    (14 &&& 0x07 = 6 ∨ 14 &&& 0x07 = 7) ∧
    (io_r inp0 false 14 specBase = (0, specBase) ∧
     register_w 14 0x5a specBase = (specBase, [])) :=
  ⟨Or.inl (by decide),
   C9_unused_registers inp0 false 14 0x5a specBase (Or.inl (by decide))⟩

/-! ## C10: timer length register writes -/

/-- C10: writing register 4 replaces only the low byte of
`count_length`; writing register 5 replaces only the high byte; nothing
else in the chip state changes and no callback is invoked. -/
theorem C10_timer_length_writes (s : I8155State) (v : Nat) (hv : v < 256) :
    register_w 4 v s =
      ({ s with count_length := (s.count_length &&& 0xff00) ||| v }, []) ∧
    (register_w 4 v s).1.count_length &&& 0xff = v ∧
    (register_w 4 v s).1.count_length >>> 8 = (s.count_length >>> 8) &&& 0xff ∧
    register_w 5 v s =
      ({ s with count_length := (v <<< 8) ||| (s.count_length &&& 0xff) }, []) ∧
    (register_w 5 v s).1.count_length >>> 8 = v ∧
    (register_w 5 v s).1.count_length &&& 0xff = s.count_length &&& 0xff := by
  have hmask : v &&& 0xff = v := by
    rw [and_mask8]
    exact Nat.mod_eq_of_lt hv
  have e4 : (4 : Nat) &&& 0x07 = 4 := by decide
  have e5 : (5 : Nat) &&& 0x07 = 5 := by decide
  have hr4 : register_w 4 v s =
      ({ s with count_length := (s.count_length &&& 0xff00) ||| v }, []) := by
    simp [register_w, hmask, e4]
  have hr5 : register_w 5 v s =
      ({ s with count_length := (v <<< 8) ||| (s.count_length &&& 0xff) }, []) := by
    simp [register_w, hmask, e5]
  refine ⟨hr4, ?_, ?_, hr5, ?_, ?_⟩
  · rw [hr4]
    show ((s.count_length &&& 0xff00) ||| v) &&& 0xff = v
    rw [Nat.and_distrib_right, Nat.and_assoc]
    have h1 : (0xff00 &&& 0xff : Nat) = 0 := by decide
    rw [h1, Nat.and_zero, Nat.zero_or, hmask]
  · rw [hr4]
    show ((s.count_length &&& 0xff00) ||| v) >>> 8 = (s.count_length >>> 8) &&& 0xff
    rw [or_shiftRight_distrib, and_shiftRight_distrib]
    have h1 : (0xff00 : Nat) >>> 8 = 0xff := by decide
    have h2 : v >>> 8 = 0 := by
      rw [Nat.shiftRight_eq_div_pow]
      exact Nat.div_eq_of_lt (by norm_num; omega)
    rw [h1, h2, Nat.or_zero]
  · rw [hr5]
    show ((v <<< 8) ||| (s.count_length &&& 0xff)) >>> 8 = v
    exact or_shiftLeft_shiftRight v _ 8
      (Nat.and_lt_two_pow s.count_length (by norm_num))
  · rw [hr5]
    show ((v <<< 8) ||| (s.count_length &&& 0xff)) &&& 0xff =
      s.count_length &&& 0xff
    rw [Nat.and_distrib_right, Nat.and_assoc]
    have h1 : (0xff &&& 0xff : Nat) = 0xff := by decide
    have h2 : (v <<< 8) &&& 0xff = 0 := by
      rw [and_mask8, Nat.shiftLeft_eq]
      norm_num
    rw [h1, h2, Nat.zero_or]

/-- C10 witness: writing `0x34` to registers 4 and 5 of a state whose
`count_length` is `0xabcd`. -/
theorem C10_timer_length_writes_witness :
    (0x34 < 256) ∧
    (register_w 4 0x34 c10st).1.count_length = 0xab34 ∧
    (register_w 5 0x34 c10st).1.count_length = 0x34cd := by
  refine ⟨by decide, ?_, ?_⟩
  · rw [(C10_timer_length_writes c10st 0x34 (by decide)).1]
    decide
  · rw [(C10_timer_length_writes c10st 0x34 (by decide)).2.2.2.1]
    decide

/-! ## C6: status flag clear-on-read -/

/-- C6: with status bit 6 set, a normal read of register 0 returns the
status byte with the flag set and clears exactly that flag; a
side-effect-suppressed read returns the same byte and changes nothing. -/
theorem C6_status_read (inp : Nat → Nat) (s : I8155State)
    (hbyte : s.status < 256) (hbit : s.status &&& 0x40 ≠ 0) :
    (io_r inp false 0 s).1 = s.status ∧
    (io_r inp false 0 s).1 &&& 0x40 ≠ 0 ∧
    (io_r inp false 0 s).2 = { s with status := s.status &&& 0xbf } ∧
    (io_r inp false 0 s).2.status &&& 0x40 = 0 ∧
    (∀ i, i ≠ 6 → ((io_r inp false 0 s).2.status).testBit i =
      s.status.testBit i) ∧
    io_r inp true 0 s = (s.status, s) := by
  have e0 : (0 : Nat) &&& 0x07 = 0 := by decide
  have hread : io_r inp false 0 s =
      (s.status, { s with status := s.status &&& 0xbf }) := by
    simp [io_r, e0]
  have hsupp : io_r inp true 0 s = (s.status, s) := by
    simp [io_r, e0]
  refine ⟨by rw [hread], by rw [hread]; exact hbit, by rw [hread], ?_, ?_, hsupp⟩
  · rw [hread]
    show (s.status &&& 0xbf) &&& 0x40 = 0
    rw [Nat.and_assoc]
    have h1 : (0xbf &&& 0x40 : Nat) = 0 := by decide
    rw [h1, Nat.and_zero]
  · intro i hi
    rw [hread]
    show ((s.status &&& 0xbf).testBit i) = s.status.testBit i
    rw [Nat.testBit_and]
    by_cases h8 : i < 8
    · have hb : (0xbf : Nat).testBit i = true := by
        interval_cases i <;> first | rfl | exact absurd rfl hi
      rw [hb, Bool.and_true]
    · have h256 : (256 : Nat) ≤ 2 ^ i := by
        have h28 : (2 : Nat) ^ 8 ≤ 2 ^ i := Nat.pow_le_pow_right (by norm_num) (by omega)
        norm_num at h28
        exact h28
      have h1 : s.status.testBit i = false :=
        Nat.testBit_lt_two_pow (lt_of_lt_of_le hbyte h256)
      rw [h1, Bool.false_and]

/-- C6 witness: status `0x40` is returned and cleared by a normal read,
kept by a suppressed read. -/
theorem C6_status_read_witness :
    (c6st.status < 256 ∧ c6st.status &&& 0x40 ≠ 0) ∧
    (io_r inp0 false 0 c6st).1 = c6st.status ∧
    (io_r inp0 false 0 c6st).2.status &&& 0x40 = 0 ∧
    io_r inp0 true 0 c6st = (c6st.status, c6st) := by
  have h := C6_status_read inp0 c6st (by decide) (by decide)
  exact ⟨⟨by decide, by decide⟩, h.1, h.2.2.2.1, h.2.2.2.2.2⟩

/-! ## C5: degenerate programmed length -/

/-- C5: when the programmed 14-bit count field is 0 or 1, a reload
entered from a stopped timer (directly, or via a Start command) leaves
the timer stopped: no event is scheduled and TO is (or becomes) high. -/
theorem C5_degenerate_length (s : I8155State) (d : Nat)
    (hstopped : s.timer = none)
    (hlen : s.count_length &&& 0x3fff < 2)
    (hd : d &&& 0xc0 = 0xc0) (hbyte : d < 256) :
    ((timer_reload_count s).1.timer = none ∧
     (timer_reload_count s).1.timer_tc = none ∧
     (timer_reload_count s).1.m_to = 1) ∧
    ((write_command d s).1.timer = none ∧
     (write_command d s).1.timer_tc = none ∧
     (write_command d s).1.m_to = 1) := by
  have hbmask : d &&& 0xff = d := by
    rw [and_mask8]
    exact Nat.mod_eq_of_lt hbyte
  have hne40 : ¬(d &&& 0xc0 = 0x40) := by rw [hd]; decide
  have hreload : ∀ u : I8155State, u.timer = none →
      u.count_length &&& 0x3fff < 2 →
      (timer_reload_count u).1.timer = none ∧
      (timer_reload_count u).1.timer_tc = none ∧
      (timer_reload_count u).1.m_to = 1 := by
    intro u ht hl
    unfold timer_reload_count timer_stop_count timer_output
    simp only [hl, if_true, ht, Option.isSome_none, Bool.false_eq_true,
      if_false]
    by_cases h1 : (1 : Nat) = u.m_to
    · simp [← h1]
    · simp [h1]
  have hcmd : (write_command d s).1 =
      (timer_reload_count { s with command := d }).1 := by
    unfold write_command
    simp only [hbmask, hne40, if_false, hd, if_true, hstopped]
    rfl
  refine ⟨hreload s hstopped hlen, ?_⟩
  rw [hcmd]
  exact hreload { s with command := d } hstopped hlen

/-- C5 witness: length field 1 with AUTO_RELOAD mode; Start leaves the
timer stopped with TO high. -/
theorem C5_degenerate_length_witness :
    (c5st.timer = none ∧ c5st.count_length &&& 0x3fff < 2 ∧
     (0xc0 : Nat) &&& 0xc0 = 0xc0 ∧ (0xc0 : Nat) < 256) ∧
    ((write_command 0xc0 c5st).1.timer = none ∧
     (write_command 0xc0 c5st).1.timer_tc = none ∧
     (write_command 0xc0 c5st).1.m_to = 1) := by
  have h := C5_degenerate_length c5st 0xc0 (by decide) (by decide)
    (by decide) (by decide)
  exact ⟨⟨by decide, by decide, by decide, by decide⟩, h.2⟩

/-- C3 counterexample: on a stopped timer, a Stop command leaves
`count_loaded` unchanged, so the claimed unconditional snapshot of the
live count (which reads `count_length = 5` here) into `count_loaded`
fails. -/
theorem C3_stop_command_counterexample :
    ¬ ((write_command 0x40 c3cex).1.m_to = 1 ∧
       (write_command 0x40 c3cex).1.timer = none ∧
       (write_command 0x40 c3cex).1.timer_tc = none ∧
       (write_command 0x40 c3cex).1.count_loaded =
         (c3cex.count_loaded &&& 0xc000) ||| get_timer_count c3cex) := by
  decide

/-- C3 (amended): a Stop command always forces TO high and disables
both scheduled events; `count_loaded` receives the mode-preserving
snapshot of the live count only when the half-period event was
running, and is left unchanged otherwise. -/
theorem C3_stop_command (s : I8155State) (d : Nat)
    (hd : d &&& 0xc0 = 0x40) (hbyte : d < 256) :
    (write_command d s).1.m_to = 1 ∧
    (write_command d s).1.timer = none ∧
    (write_command d s).1.timer_tc = none ∧
    (write_command d s).1.count_loaded =
      (if s.timer.isSome then (s.count_loaded &&& 0xc000) ||| get_timer_count s
       else s.count_loaded) := by
  have hbmask : d &&& 0xff = d := by
    rw [and_mask8]
    exact Nat.mod_eq_of_lt hbyte
  have hwc : (write_command d s).1 =
      (timer_stop_count { s with command := d }).1 := by
    unfold write_command
    simp only [hbmask, hd, if_true]
  rw [hwc]
  have hg : get_timer_count { s with command := d } = get_timer_count s := rfl
  unfold timer_stop_count timer_output
  cases htm : s.timer with
  | none =>
    simp only [htm, Option.isSome_none, Bool.false_eq_true, if_false]
    by_cases h1 : (1 : Nat) = s.m_to
    · simp [← h1, htm]
    · simp [h1, htm]
  | some t =>
    simp only [htm, Option.isSome_some, if_true]
    by_cases h1 : (1 : Nat) = s.m_to
    · simp [← h1, htm, get_timer_count, remainingClocks]
    · simp [h1, htm, get_timer_count, remainingClocks]

/-- C3 witness: Stop on a running timer forces TO high, disables both
events, and snapshots the live count into `count_loaded`. -/
theorem C3_stop_command_witness :
    ((0x40 : Nat) &&& 0xc0 = 0x40 ∧ (0x40 : Nat) < 256) ∧
    ((write_command 0x40 c3st).1.m_to = 1 ∧
     (write_command 0x40 c3st).1.timer = none ∧
     (write_command 0x40 c3st).1.timer_tc = none ∧
     (write_command 0x40 c3st).1.count_loaded =
       (if c3st.timer.isSome then
          (c3st.count_loaded &&& 0xc000) ||| get_timer_count c3st
        else c3st.count_loaded)) :=
  ⟨⟨by decide, by decide⟩, C3_stop_command c3st 0x40 (by decide) (by decide)⟩

/-! ## C4: the Start command -/

/-- C4: Start while the half-period event is pending changes neither
`count_loaded`, the event deadlines, the output level, the phase, nor
the programmed length; the new parameters wait for the next natural
reload boundary. Start on a stopped timer performs the reload at once. -/
theorem C4_start_command (s : I8155State) (d : Nat)
    (hd : d &&& 0xc0 = 0xc0) (hbyte : d < 256) :
    (s.timer.isSome = true →
      (write_command d s).1.count_loaded = s.count_loaded ∧
      (write_command d s).1.timer = s.timer ∧
      (write_command d s).1.timer_tc = s.timer_tc ∧
      (write_command d s).1.m_to = s.m_to ∧
      (write_command d s).1.count_even_phase = s.count_even_phase ∧
      (write_command d s).1.count_length = s.count_length) ∧
    (s.timer = none →
      (write_command d s).1 = (timer_reload_count { s with command := d }).1) := by
  have hbmask : d &&& 0xff = d := by
    rw [and_mask8]
    exact Nat.mod_eq_of_lt hbyte
  have hne40 : ¬(d &&& 0xc0 = 0x40) := by rw [hd]; decide
  constructor
  · intro hrun
    have hwc : (write_command d s).1 = { s with command := d } := by
      unfold write_command
      simp [hbmask, hd, hrun]
    rw [hwc]
    exact ⟨rfl, rfl, rfl, rfl, rfl, rfl⟩
  · intro hstop
    unfold write_command
    simp [hbmask, hd, hstop]

/-- C4 witness: Start at time 30 while an event is pending at tick 50
leaves the counting state untouched; Start on the stopped baseline
state reloads immediately. -/
theorem C4_start_command_witness :
    ((0xc0 : Nat) &&& 0xc0 = 0xc0 ∧ (0xc0 : Nat) < 256 ∧
      c4st.timer.isSome = true ∧ specBase.timer = none) ∧
    ((write_command 0xc0 c4st).1.count_loaded = c4st.count_loaded ∧
     (write_command 0xc0 c4st).1.timer = c4st.timer ∧
     (write_command 0xc0 c4st).1.timer_tc = c4st.timer_tc ∧
     (write_command 0xc0 c4st).1.m_to = c4st.m_to ∧
     (write_command 0xc0 c4st).1.count_even_phase = c4st.count_even_phase ∧
     (write_command 0xc0 c4st).1.count_length = c4st.count_length) ∧
    (write_command 0xc0 specBase).1 =
      (timer_reload_count { specBase with command := 0xc0 }).1 := by
  refine ⟨⟨by decide, by decide, by decide, by decide⟩, ?_, ?_⟩
  · exact (C4_start_command c4st 0xc0 (by decide) (by decide)).1 (by decide)
  · exact (C4_start_command specBase 0xc0 (by decide) (by decide)).2 (by decide)

/-! ## C7: port writes and the direction-change flush -/

theorem get_port_mode_output_irrel (s : I8155State) (f : Nat → Nat)
    (port : Nat) :
    get_port_mode { s with output := f } port = get_port_mode s port := rfl

theorem filter_isPA_timer_output (v : Nat) (u : I8155State) :
    ((timer_output v u).2.filter isPA) = [] := by
  unfold timer_output
  split <;> rfl

theorem filter_isPB_timer_output (v : Nat) (u : I8155State) :
    ((timer_output v u).2.filter isPB) = [] := by
  unfold timer_output
  split <;> rfl

theorem filter_isPA_stop (u : I8155State) :
    ((timer_stop_count u).2.filter isPA) = [] := by
  unfold timer_stop_count
  apply filter_isPA_timer_output

theorem filter_isPB_stop (u : I8155State) :
    ((timer_stop_count u).2.filter isPB) = [] := by
  unfold timer_stop_count
  apply filter_isPB_timer_output

theorem filter_isPA_reload (u : I8155State) :
    ((timer_reload_count u).2.filter isPA) = [] := by
  unfold timer_reload_count
  dsimp only
  split
  · apply filter_isPA_stop
  · apply filter_isPA_timer_output

theorem filter_isPB_reload (u : I8155State) :
    ((timer_reload_count u).2.filter isPB) = [] := by
  unfold timer_reload_count
  dsimp only
  split
  · apply filter_isPB_stop
  · apply filter_isPB_timer_output

theorem cmd_timer_events_filter_pa (s1 : I8155State) (d : Nat) :
    (List.filter isPA (if d &&& 0xc0 = 0x40 then timer_stop_count s1
      else if d &&& 0xc0 = 0xc0 then
        (if s1.timer.isSome then (s1, ([] : List Ev)) else timer_reload_count s1)
      else (s1, [])).2) = [] := by
  split
  · apply filter_isPA_stop
  split
  · split
    · rfl
    · apply filter_isPA_reload
  · rfl

theorem cmd_timer_events_filter_pb (s1 : I8155State) (d : Nat) :
    (List.filter isPB (if d &&& 0xc0 = 0x40 then timer_stop_count s1
      else if d &&& 0xc0 = 0xc0 then
        (if s1.timer.isSome then (s1, ([] : List Ev)) else timer_reload_count s1)
      else (s1, [])).2) = [] := by
  split
  · apply filter_isPB_stop
  split
  · split
    · rfl
    · apply filter_isPB_reload
  · rfl

theorem write_command_filter_pa (s : I8155State) (d : Nat) :
    ((write_command d s).2.filter isPA) =
      (if (d &&& 0xff) &&& 0x01 ≠ 0 ∧ s.command &&& 0x01 = 0
       then [Ev.out_pa (s.output 0)] else []) := by
  unfold write_command
  simp only [List.filter_append]
  rw [cmd_timer_events_filter_pa]
  have h2 : ∀ (c : Prop) [inst : Decidable c] (x : Nat),
      (List.filter isPA (if c then [Ev.out_pb x] else [])) = [] := by
    intro c inst x
    split <;> rfl
  have h3 : ∀ (c : Prop) [inst : Decidable c] (x : Nat),
      (List.filter isPA (if c then [Ev.out_pc x] else [])) = [] := by
    intro c inst x
    split <;> rfl
  rw [h2, h3]
  simp only [List.append_nil]
  split <;> rfl

theorem write_command_filter_pb (s : I8155State) (d : Nat) :
    ((write_command d s).2.filter isPB) =
      (if (d &&& 0xff) &&& 0x02 ≠ 0 ∧ s.command &&& 0x02 = 0
       then [Ev.out_pb (s.output 1)] else []) := by
  unfold write_command
  simp only [List.filter_append]
  rw [cmd_timer_events_filter_pb]
  have h1 : ∀ (c : Prop) [inst : Decidable c] (x : Nat),
      (List.filter isPB (if c then [Ev.out_pa x] else [])) = [] := by
    intro c inst x
    split <;> rfl
  have h3 : ∀ (c : Prop) [inst : Decidable c] (x : Nat),
      (List.filter isPB (if c then [Ev.out_pc x] else [])) = [] := by
    intro c inst x
    split <;> rfl
  rw [h1, h3]
  simp only [List.nil_append, List.append_nil]
  split <;> rfl

theorem and_ff_and (d c : Nat) (hc : 0xff &&& c = c) :
    (d &&& 0xff) &&& c = d &&& c := by
  rw [Nat.and_assoc, hc]

/-- C7: a port write always stores the byte in the output latch and
invokes the port's output callback with that value exactly when the
port is in output mode; a command write that flips port A's or B's
direction bit from input to output emits exactly one flush callback
carrying the latched value, and no port-A/B callback otherwise. -/
theorem C7_port_writes (s : I8155State) (data : Nat) (hd : data < 256)
    (d : Nat) :
    ((write_port 0 data s).1.output 0 = data ∧
     (write_port 0 data s).2 =
       (if get_port_mode s 0 = 1 then [Ev.out_pa data] else [])) ∧
    ((write_port 1 data s).1.output 1 = data ∧
     (write_port 1 data s).2 =
       (if get_port_mode s 1 = 1 then [Ev.out_pb data] else [])) ∧
    ((write_port 2 data s).1.output 2 = data ∧
     (write_port 2 data s).2 =
       (if get_port_mode s 2 = 1 then [Ev.out_pc data] else [])) ∧
    ((write_command d s).2.filter isPA =
       (if d &&& 0x01 ≠ 0 ∧ s.command &&& 0x01 = 0
        then [Ev.out_pa (s.output 0)] else [])) ∧
    ((write_command d s).2.filter isPB =
       (if d &&& 0x02 ≠ 0 ∧ s.command &&& 0x02 = 0
        then [Ev.out_pb (s.output 1)] else [])) := by
  have hbmask : data &&& 0xff = data := by
    rw [and_mask8]
    exact Nat.mod_eq_of_lt hd
  refine ⟨?_, ?_, ?_, ?_, ?_⟩
  · by_cases h : get_port_mode s 0 = 1 <;>
      exact ⟨by simp [write_port, get_port_mode_output_irrel, hbmask, h],
             by simp [write_port, get_port_mode_output_irrel, hbmask, h]⟩
  · by_cases h : get_port_mode s 1 = 1 <;>
      exact ⟨by simp [write_port, get_port_mode_output_irrel, hbmask, h],
             by simp [write_port, get_port_mode_output_irrel, hbmask, h]⟩
  · by_cases h : get_port_mode s 2 = 1 <;>
      exact ⟨by simp [write_port, get_port_mode_output_irrel, hbmask, h],
             by simp [write_port, get_port_mode_output_irrel, hbmask, h]⟩
  · rw [write_command_filter_pa, and_ff_and d 0x01 (by decide)]
  · rw [write_command_filter_pb, and_ff_and d 0x02 (by decide)]

/-- C7 witness: writing `0x12` to port A in input mode latches it
without a callback; flipping port A to output flushes `0x5a` once. -/
theorem C7_port_writes_witness :
    ((0x12 : Nat) < 256) ∧
    ((write_port 0 0x12 c7st).1.output 0 = 0x12 ∧
     (write_port 0 0x12 c7st).2 =
       (if get_port_mode c7st 0 = 1 then [Ev.out_pa 0x12] else []) ∧
     (write_command 0x01 c7st).2.filter isPA =
       (if (0x01 : Nat) &&& 0x01 ≠ 0 ∧ c7st.command &&& 0x01 = 0
        then [Ev.out_pa (c7st.output 0)] else [])) := by
  have h := C7_port_writes c7st 0x12 (by decide) 0x01
  exact ⟨by decide, h.1.1, h.1.2, h.2.2.2.1⟩

/-- C2: whenever the terminal-count event fires, status bit 6 is set
regardless of mode, and the output is driven low exactly when the mode
has TC_PULSE; in the concrete length-100 TC_PULSE scenario the whole
trace contains exactly one transition to low (at tick 99 ≈ terminal
count) followed by the final return high at tick 100, after which the
timer halts with both events disabled and status bit 6 set. -/
theorem C2_tc_pulse_mode (s : I8155State) (d : Nat)
    (h : s.timer_tc = some d) :
    (fireTC s).1.status = s.status ||| 0x40 ∧
    (fireTC s).1.m_to =
      (if get_timer_mode s &&& 0x80 ≠ 0 then 0 else s.m_to) ∧
    (run inp0 c2ops c2st).2 = [Ev.out_to 0, Ev.out_to 1] ∧
    (run inp0 [Op.ioWOp 0 0xc0, Op.halfOp] c2st).1.timer = some 100 ∧
    (run inp0 [Op.ioWOp 0 0xc0, Op.halfOp] c2st).1.timer_tc = some 99 ∧
    (run inp0 c2ops c2st).1.timer = none ∧
    (run inp0 c2ops c2st).1.timer_tc = none ∧
    (run inp0 c2ops c2st).1.status &&& 0x40 = 0x40 ∧
    (run inp0 c2ops c2st).1.m_to = 1 := by
  have key : fireTC s = timer_tc { s with now := d, timer_tc := none } := by
    unfold fireTC
    rw [h]
  refine ⟨?_, ?_, by decide, by decide, by decide, by decide, by decide,
    by decide, by decide⟩
  · rw [key]
    unfold timer_tc timer_output
    by_cases hm : ((s.count_loaded >>> 8) &&& 0xc0) &&& 0x80 = 0
    · simp [get_timer_mode, hm]
    · by_cases h0 : (0 : Nat) = s.m_to
      · simp [get_timer_mode, hm, ← h0]
      · simp [get_timer_mode, hm, h0]
  · rw [key]
    unfold timer_tc timer_output
    by_cases hm : ((s.count_loaded >>> 8) &&& 0xc0) &&& 0x80 = 0
    · simp [get_timer_mode, hm]
    · by_cases h0 : (0 : Nat) = s.m_to
      · simp [get_timer_mode, hm, ← h0]
      · simp [get_timer_mode, hm, h0]

/-- C2 witness: firing the pending TC event sets status bit 6 and
drives the output low (TC_PULSE mode is loaded). -/
theorem C2_tc_pulse_mode_witness :
    (c2wst.timer_tc = some 7) ∧
    (fireTC c2wst).1.status = c2wst.status ||| 0x40 ∧
    (fireTC c2wst).1.m_to =
      (if get_timer_mode c2wst &&& 0x80 ≠ 0 then 0 else c2wst.m_to) := by
  have h := C2_tc_pulse_mode c2wst 7 (by decide)
  exact ⟨by decide, h.1, h.2.1⟩

theorem reload_spec (s : I8155State) (h2 : 2 ≤ s.count_length &&& 0x3fff) :
    timer_reload_count s =
      (reloadedState s, if 1 = s.m_to then [] else [Ev.out_to 1]) := by
  unfold timer_reload_count timer_output reloadedState
  dsimp only
  rw [if_neg (by omega)]
  by_cases h1 : (1 : Nat) = s.m_to
  · rw [if_pos h1, if_pos h1, ← h1]
  · rw [if_neg h1, if_neg h1]

theorem timer_output_one_to (u : I8155State) :
    (timer_output 1 u).1.m_to = 1 := by
  unfold timer_output
  split
  · next h => exact h.symm
  · rfl

theorem stop_to (u : I8155State) : (timer_stop_count u).1.m_to = 1 := by
  unfold timer_stop_count
  apply timer_output_one_to

theorem reload_to (u : I8155State) : (timer_reload_count u).1.m_to = 1 := by
  unfold timer_reload_count
  dsimp only
  split
  · apply stop_to
  · apply timer_output_one_to

theorem half_even_to (u : I8155State) (d : Nat)
    (hphase : u.count_even_phase = true) (htimer : u.timer = some d) :
    (fireHalf u).1.m_to = 1 := by
  unfold fireHalf
  rw [htimer]
  unfold timer_half_counted
  dsimp only
  rw [hphase]
  simp only [if_true]
  split
  · apply stop_to
  · apply reload_to

theorem half_odd_spec (u : I8155State) (d : Nat)
    (hphase : u.count_even_phase = false) (htimer : u.timer = some d)
    (hTC : u.count_loaded &&& 0x8000 = 0) (hto : u.m_to = 1) :
    fireHalf u =
      ({ u with
          now := d,
          count_even_phase := true,
          timer := some (d + ((u.count_loaded &&& 0x3ffe) >>> 1)),
          m_to := 0 },
       [Ev.out_to 0]) := by
  have hTCm : ((u.count_loaded >>> 8) &&& 0xc0) &&& 0x80 = 0 :=
    (mode_tc_pulse_iff _).mpr hTC
  unfold fireHalf
  rw [htimer]
  unfold timer_half_counted get_timer_mode timer_output
  dsimp only
  rw [hphase]
  simp only [Bool.false_eq_true, if_false, hTCm, if_true, hto]
  rw [if_neg (by omega : ¬(0 : Nat) = 1)]

theorem half_even_reload_spec (u : I8155State) (d : Nat)
    (hphase : u.count_even_phase = true) (htimer : u.timer = some d)
    (h2 : 2 ≤ u.count_length &&& 0x3fff)
    (hAR : u.count_loaded &&& 0x4000 ≠ 0) (hcmd : u.command &&& 0xc0 ≠ 0x80)
    (hto : u.m_to = 0) :
    fireHalf u =
      ({ u with
          now := d,
          count_loaded := u.count_length,
          count_even_phase := false,
          timer := some (d +
            (((u.count_length &&& 0x3ffe) >>> 1) + (u.count_length &&& 1))),
          m_to := 1 },
       [Ev.out_to 1]) := by
  have hARm : ¬(((u.count_loaded >>> 8) &&& 0xc0) &&& 0x40 = 0) := by
    intro hz
    exact hAR ((mode_auto_reload_iff _).mp hz)
  unfold fireHalf
  rw [htimer]
  unfold timer_half_counted
  dsimp only
  rw [hphase]
  simp only [if_true]
  unfold timer_output get_timer_mode
  dsimp only
  rw [hto, if_neg (by omega : ¬(1 : Nat) = 0)]
  dsimp only
  rw [if_neg ?hcond]
  case hcond =>
    push_neg
    exact ⟨hARm, hcmd⟩
  rw [reload_spec
    { u with m_to := 1, count_even_phase := false, now := d, timer := none } h2]
  unfold reloadedState
  dsimp only
  rw [if_pos rfl]
  rw [List.append_nil]

theorem period_spec (u : I8155State) (L d : Nat)
    (hL : u.count_length &&& 0x3fff = L) (h2 : 2 ≤ L)
    (hloaded : u.count_loaded = u.count_length)
    (hTC : u.count_length &&& 0x8000 = 0)
    (hAR : u.count_length &&& 0x4000 ≠ 0)
    (hcmd : u.command &&& 0xc0 ≠ 0x80)
    (hphase : u.count_even_phase = false)
    (hto : u.m_to = 1)
    (htimer : u.timer = some d) :
    fireHalfTwice u = { u with now := d + L / 2, timer := some (d + L) } := by
  obtain ⟨rm, io, ad, cm, st, ot, clen, cload, mto, cep, nw, tm, ttc⟩ := u
  dsimp only at hL hloaded hTC hAR hcmd hphase hto htimer ⊢
  subst hloaded hphase hto htimer
  unfold fireHalfTwice
  rw [half_odd_spec ⟨rm, io, ad, cm, st, ot, cload, cload, 1, false, nw,
    some d, ttc⟩ d rfl rfl hTC rfl]
  dsimp only
  rw [half_even_reload_spec ⟨rm, io, ad, cm, st, ot, cload, cload, 0, true, d,
    some (d + ((cload &&& 0x3ffe) >>> 1)), ttc⟩
    (d + ((cload &&& 0x3ffe) >>> 1)) rfl rfl
    (by show 2 ≤ cload &&& 0x3fff; rw [hL]; exact h2) hAR hcmd rfl]
  dsimp only
  have e1 : (cload &&& 0x3ffe) >>> 1 = L / 2 := by
    rw [floorHalf, hL]
  have e2 : (cload &&& 0x3ffe) >>> 1 + (cload &&& 1) = (L + 1) / 2 := by
    rw [ceilHalf, hL]
  rw [e2, e1]
  have e3 : d + L / 2 + (L + 1) / 2 = d + L := by omega
  rw [e3]

/-- C1: with a count field L ≥ 2 and no TC_PULSE bit, a reload
schedules the half-period event ceil(L/2) ticks out with TO high; that
event reschedules floor(L/2) ticks and drives TO low; the even half
ends exactly L ticks after the reload with TO high again; and with
AUTO_RELOAD set and no pending stop-after-TC command this repeats
forever with period exactly L. -/
theorem C1_square_wave_mode (s : I8155State) (L : Nat)
    (hL : s.count_length &&& 0x3fff = L) (h2 : 2 ≤ L)
    (hTC : s.count_length &&& 0x8000 = 0) :
    (timer_reload_count s).1.timer = some (s.now + (L + 1) / 2) ∧
    (timer_reload_count s).1.m_to = 1 ∧
    (fireHalf (timer_reload_count s).1).1.timer =
      some (s.now + (L + 1) / 2 + L / 2) ∧
    (fireHalf (timer_reload_count s).1).1.m_to = 0 ∧
    (fireHalf (timer_reload_count s).1).2 = [Ev.out_to 0] ∧
    s.now + (L + 1) / 2 + L / 2 = s.now + L ∧
    (fireHalfTwice (timer_reload_count s).1).m_to = 1 ∧
    (s.count_length &&& 0x4000 ≠ 0 → s.command &&& 0xc0 ≠ 0x80 →
      ∀ n : Nat, fireHalfTwice^[n] (timer_reload_count s).1 =
        { (timer_reload_count s).1 with
            now := s.now + n * L,
            timer := some (s.now + n * L + (L + 1) / 2) }) := by
  obtain ⟨rm, io, adr, cm, st, ot, clen, cload, mto, cep, nw, tm, ttc⟩ := s
  dsimp only at hL hTC ⊢
  have h2' : 2 ≤ clen &&& 0x3fff := by rw [hL]; exact h2
  have eceil : (clen &&& 0x3ffe) >>> 1 + (clen &&& 1) = (L + 1) / 2 := by
    rw [ceilHalf, hL]
  have efloor : (clen &&& 0x3ffe) >>> 1 = L / 2 := by
    rw [floorHalf, hL]
  have hr := reload_spec
    ⟨rm, io, adr, cm, st, ot, clen, cload, mto, cep, nw, tm, ttc⟩ h2'
  have hrfst : (timer_reload_count
      ⟨rm, io, adr, cm, st, ot, clen, cload, mto, cep, nw, tm, ttc⟩).1 =
      ⟨rm, io, adr, cm, st, ot, clen, clen, 1, false, nw,
       some (nw + ((clen &&& 0x3ffe) >>> 1 + (clen &&& 1))), ttc⟩ := by
    rw [hr]
    rfl
  have hodd := half_odd_spec
    ⟨rm, io, adr, cm, st, ot, clen, clen, 1, false, nw,
     some (nw + ((clen &&& 0x3ffe) >>> 1 + (clen &&& 1))), ttc⟩
    (nw + ((clen &&& 0x3ffe) >>> 1 + (clen &&& 1))) rfl rfl hTC rfl
  refine ⟨?_, ?_, ?_, ?_, ?_, by omega, ?_, ?_⟩
  · rw [hrfst]
    dsimp only
    rw [eceil]
  · rw [hrfst]
  · rw [hrfst, hodd]
    dsimp only
    rw [eceil, efloor]
  · rw [hrfst, hodd]
  · rw [hrfst, hodd]
  · rw [hrfst]
    unfold fireHalfTwice
    rw [hodd]
    dsimp only
    exact half_even_to _ _ rfl rfl
  · intro hAR hcmd n
    rw [hrfst]
    dsimp only
    induction n with
    | zero =>
      dsimp only [Function.iterate_zero, id]
      rw [eceil, show nw + 0 * L = nw from by omega]
    | succ n ih =>
      rw [Function.iterate_succ_apply', ih]
      rw [period_spec ⟨rm, io, adr, cm, st, ot, clen, clen, 1, false,
          nw + n * L, some (nw + n * L + (L + 1) / 2), ttc⟩ L
          (nw + n * L + (L + 1) / 2) hL h2 rfl hTC hAR hcmd rfl rfl rfl]
      dsimp only
      rw [show nw + n * L + (L + 1) / 2 + L / 2 = nw + (n + 1) * L from by
            rw [Nat.succ_mul]
            omega,
          show nw + n * L + (L + 1) / 2 + L = nw + (n + 1) * L + (L + 1) / 2
            from by
            rw [Nat.succ_mul]
            omega]

/-- C1 witness: length 100 gives the half event at tick 50 (TO high),
the low phase from 50 to 100, and iterated periods at exactly 100
ticks each (two periods shown). -/
theorem C1_square_wave_mode_witness :
    (c1st.count_length &&& 0x3fff = 100 ∧ 2 ≤ 100 ∧
     c1st.count_length &&& 0x8000 = 0 ∧
     c1st.count_length &&& 0x4000 ≠ 0 ∧ c1st.command &&& 0xc0 ≠ 0x80) ∧
    (timer_reload_count c1st).1.timer = some 50 ∧
    (fireHalf (timer_reload_count c1st).1).1.timer = some 100 ∧
    (fireHalf (timer_reload_count c1st).1).2 = [Ev.out_to 0] ∧
    fireHalfTwice^[2] (timer_reload_count c1st).1 =
      { (timer_reload_count c1st).1 with now := 200, timer := some 250 } := by
  have h := C1_square_wave_mode c1st 100 (by decide) (by decide) (by decide)
  refine ⟨⟨by decide, by decide, by decide, by decide, by decide⟩,
    ?_, ?_, h.2.2.2.2.1, ?_⟩
  · rw [h.1]
    decide
  · rw [h.2.2.1]
    decide
  · have h8 := h.2.2.2.2.2.2.2 (by decide) (by decide) 2
    rw [h8]
    rfl

/-! ## C8: the TO callback never repeats a level -/

theorem toSeq_append (a b : List Ev) : toSeq (a ++ b) = toSeq a ++ toSeq b := by
  induction a with
  | nil => rfl
  | cons e es ih => cases e <;> simp [toSeq, ih]

theorem lastD_append (v : Nat) (l1 l2 : List Nat) :
    lastD v (l1 ++ l2) = lastD (lastD v l1) l2 := by
  induction l1 generalizing v with
  | nil => rfl
  | cons w ws ih => simp [lastD, ih]

theorem chainNe_append (v : Nat) (l1 l2 : List Nat) (h1 : chainNe v l1)
    (h2 : chainNe (lastD v l1) l2) : chainNe v (l1 ++ l2) := by
  induction l1 generalizing v with
  | nil => simpa using h2
  | cons w ws ih =>
    refine ⟨h1.1, ih w h1.2 ?_⟩
    simpa [lastD] using h2

theorem alt_nil (v : Nat) : Alt v [] v := ⟨trivial, rfl⟩

theorem alt_trans {v w x : Nat} {e1 e2 : List Ev}
    (h1 : Alt v e1 w) (h2 : Alt w e2 x) : Alt v (e1 ++ e2) x := by
  unfold Alt at h1 h2 ⊢
  rw [toSeq_append]
  constructor
  · refine chainNe_append v _ _ h1.1 ?_
    rw [h1.2]
    exact h2.1
  · rw [lastD_append, h1.2]
    exact h2.2

theorem alt_of_toSeq_nil (v : Nat) (es : List Ev) (h : toSeq es = []) :
    Alt v es v := by
  unfold Alt
  rw [h]
  exact ⟨trivial, rfl⟩

theorem alt_timer_output (v : Nat) (s : I8155State) (w : Nat)
    (hw : s.m_to = w) :
    Alt w (timer_output v s).2 (timer_output v s).1.m_to := by
  subst hw
  unfold timer_output
  by_cases h : v = s.m_to
  · rw [if_pos h]
    exact alt_nil _
  · rw [if_neg h]
    exact ⟨⟨fun hh => h hh.symm, trivial⟩, rfl⟩

theorem alt_stop (s : I8155State) (w : Nat) (hw : s.m_to = w) :
    Alt w (timer_stop_count s).2 (timer_stop_count s).1.m_to := by
  unfold timer_stop_count
  dsimp only
  split
  · exact alt_timer_output 1 _ _ hw
  · exact alt_timer_output 1 _ _ hw

theorem alt_reload (s : I8155State) (w : Nat) (hw : s.m_to = w) :
    Alt w (timer_reload_count s).2 (timer_reload_count s).1.m_to := by
  unfold timer_reload_count
  dsimp only
  split
  · exact alt_stop _ _ hw
  · exact alt_timer_output 1 _ _ hw

theorem alt_half (s : I8155State) (w : Nat) (hw : s.m_to = w) :
    Alt w (timer_half_counted s).2 (timer_half_counted s).1.m_to := by
  unfold timer_half_counted
  dsimp only
  split
  · split
    · exact alt_trans (alt_timer_output 1 s _ hw) (alt_stop _ _ rfl)
    · exact alt_trans (alt_timer_output 1 s _ hw) (alt_reload _ _ rfl)
  · split
    · exact alt_timer_output 0 _ _ hw
    · exact ⟨trivial, hw.symm⟩

theorem alt_tc (s : I8155State) (w : Nat) (hw : s.m_to = w) :
    Alt w (timer_tc s).2 (timer_tc s).1.m_to := by
  unfold timer_tc
  dsimp only
  split
  · exact alt_timer_output 0 _ _ hw
  · exact ⟨trivial, hw.symm⟩

theorem alt_fireHalf (s : I8155State) (w : Nat) (hw : s.m_to = w) :
    Alt w (fireHalf s).2 (fireHalf s).1.m_to := by
  unfold fireHalf
  split
  · exact alt_half _ _ hw
  · exact ⟨trivial, hw.symm⟩

theorem alt_fireTC (s : I8155State) (w : Nat) (hw : s.m_to = w) :
    Alt w (fireTC s).2 (fireTC s).1.m_to := by
  unfold fireTC
  split
  · exact alt_tc _ _ hw
  · exact ⟨trivial, hw.symm⟩

theorem alt_write_port (p v : Nat) (s : I8155State) (w : Nat)
    (hw : s.m_to = w) :
    Alt w (write_port p v s).2 (write_port p v s).1.m_to := by
  unfold write_port
  dsimp only
  split
  · split
    · exact ⟨trivial, hw.symm⟩
    split
    · exact ⟨trivial, hw.symm⟩
    · exact ⟨trivial, hw.symm⟩
  · exact ⟨trivial, hw.symm⟩

theorem alt_write_command (d : Nat) (s : I8155State) (w : Nat)
    (hw : s.m_to = w) :
    Alt w (write_command d s).2 (write_command d s).1.m_to := by
  unfold write_command
  dsimp only
  refine alt_trans (w := w) ?_ ?_
  · apply alt_of_toSeq_nil
    rw [toSeq_append, toSeq_append]
    simp only [List.append_eq_nil]
    refine ⟨⟨?_, ?_⟩, ?_⟩
    all_goals split <;> rfl
  · split
    · exact alt_stop _ _ hw
    split
    · split
      · exact ⟨trivial, hw.symm⟩
      · exact alt_reload _ _ hw
    · exact ⟨trivial, hw.symm⟩

theorem alt_register_w (o d : Nat) (s : I8155State) (w : Nat)
    (hw : s.m_to = w) :
    Alt w (register_w o d s).2 (register_w o d s).1.m_to := by
  unfold register_w
  dsimp only
  split
  · exact alt_write_command _ _ _ hw
  split
  · exact alt_write_port _ _ _ _ hw
  split
  · exact alt_write_port _ _ _ _ hw
  split
  · exact alt_write_port _ _ _ _ hw
  split
  · exact ⟨trivial, hw.symm⟩
  split
  · exact ⟨trivial, hw.symm⟩
  · exact ⟨trivial, hw.symm⟩

theorem io_r_m_to (inp : Nat → Nat) (sed : Bool) (o : Nat)
    (s : I8155State) : (io_r inp sed o s).2.m_to = s.m_to := by
  unfold io_r
  dsimp only
  split
  · split <;> rfl
  split
  · rfl
  split
  · rfl
  split
  · rfl
  split
  · rfl
  split
  · rfl
  · rfl

theorem data_r_m_to (inp : Nat → Nat) (sed : Bool) (s : I8155State) :
    (data_r inp sed s).2.m_to = s.m_to := by
  unfold data_r
  split
  · rfl
  · exact io_r_m_to inp sed s.ad s

theorem alt_device_reset (s : I8155State) (w : Nat) (hw : s.m_to = w) :
    Alt w (device_reset s).2 (device_reset s).1.m_to := by
  unfold device_reset
  dsimp only
  exact alt_trans (alt_register_w 0 _ _ _ hw) (alt_stop _ _ rfl)

theorem alt_step (inp : Nat → Nat) (op : Op) (s : I8155State) (w : Nat)
    (hw : s.m_to = w) :
    Alt w (step inp op s).2 (step inp op s).1.m_to := by
  cases op with
  | aleOp o d => exact ⟨trivial, hw.symm⟩
  | dataWOp v =>
    show Alt w (data_w v s).2 (data_w v s).1.m_to
    unfold data_w
    split
    · exact ⟨trivial, hw.symm⟩
    · exact alt_register_w _ _ _ _ hw
  | dataROp sed =>
    exact ⟨trivial, by
      show w = (data_r inp sed s).2.m_to
      rw [data_r_m_to]
      exact hw.symm⟩
  | ioWOp o d => exact alt_register_w _ _ _ _ hw
  | ioROp sed o =>
    exact ⟨trivial, by
      show w = (io_r inp sed o s).2.m_to
      rw [io_r_m_to]
      exact hw.symm⟩
  | memWOp o d => exact ⟨trivial, hw.symm⟩
  | halfOp => exact alt_fireHalf _ _ hw
  | tcOp => exact alt_fireTC _ _ hw
  | resetOp => exact alt_device_reset _ _ hw
  | advanceOp n => exact ⟨trivial, hw.symm⟩

theorem alt_run (inp : Nat → Nat) (ops : List Op) (s : I8155State)
    (w : Nat) (hw : s.m_to = w) :
    Alt w (run inp ops s).2 (run inp ops s).1.m_to := by
  induction ops generalizing s w with
  | nil => exact ⟨trivial, hw.symm⟩
  | cons op rest ih =>
    show Alt w ((step inp op s).2 ++ (run inp rest (step inp op s).1).2) _
    exact alt_trans (alt_step inp op s w hw) (ih _ _ rfl)

/-- C8: across any sequence of operations (bus reads and writes,
commands, scheduled half-period and terminal-count events, resets,
time passing), the TO callback trace alternates: starting from the
currently driven level `s.m_to`, no invocation repeats the previous
level. -/
theorem C8_to_never_redundant (inp : Nat → Nat) (ops : List Op)
    (s : I8155State) :
    chainNe s.m_to (toSeq (run inp ops s).2) :=
  (alt_run inp ops s s.m_to rfl).1

